import Mathlib

/-!
Verification development for `src/scripts/python/fetch-metadata.py`.

The script resolves free-text application names into Google Play
identifiers, fetches each application's detail page, extracts a
seven-field metadata record from the embedded `application/ld+json`
structured-data block, and writes one record per distinct input name.

The embedding below translates the script into Lean.  The HTTP and
HTML-parsing boundary (`requests.get`, `BeautifulSoup`) is modelled as an
oracle `Net` mapping each query (resp. identifier) to the parsed outcome
of the corresponding GET: a transport-level exception, or a status code
together with the already-parsed document structure that the script
inspects (sections and anchors of the search page; the first
`application/ld+json` script block of the detail page, whose text is
modelled by its JSON parse outcome).  Every point at which the Python
code can raise is modelled explicitly with the `Except PyErr` monad, and
the two `try/except` handlers of the script are applied exactly where
the source applies them.  `scrape_google_play` additionally returns the
list of HTTP requests it performed, as instrumentation for the
"no network call" claims; this log is not part of the source's return
value.
-/

/-- Python exception kinds that the script's code can raise. -/
inductive PyErr
  | requestException
  | jsonDecodeError
  | nameError
  | attributeError
  | typeError
  | valueError
  | indexError
  | keyError
deriving DecidableEq

/-- A JSON value, as produced by `json.loads` (numbers as rationals;
`null` maps to Python `None`). -/
inductive JVal
  | null
  | bool (b : Bool)
  | num (q : ℚ)
  | str (s : String)
  | arr (elems : List JVal)
  | obj (fields : List (String × JVal))

/-- Python truthiness (`if aggregate_rating:`, `if offers:`) for the
values `json.loads` can produce. -/
def JVal.truthy : JVal → Bool
  | .null => false
  | .bool b => b
  | .num q => !(q == 0)
  | .str s => !s.toList.isEmpty
  | .arr xs => !xs.isEmpty
  | .obj fs => !fs.isEmpty

/-- Python `s.startswith(pre)`, phrased over character lists. -/
def pyStartsWith (s pre : String) : Bool :=
  pre.toList.isPrefixOf s.toList

/-- Python `a != b` on strings, phrased over character lists. -/
def pyStrNe (a b : String) : Bool :=
  !(a.toList == b.toList)

/-- Python `c in s` for a single-character needle (`"." in app_name`). -/
def pyContainsChar (s : String) (c : Char) : Bool :=
  s.toList.contains c

/-- Python `s.split(sep)` for a single-character separator. -/
def splitOnChar (c : Char) : List Char → List (List Char)
  | [] => [[]]
  | d :: rest =>
    let r := splitOnChar c rest
    if d == c then [] :: r
    else
      match r with
      | s :: ss => (d :: s) :: ss
      | [] => [[d]]

/-- `d.get(key)` on a parsed JSON object: `some` the stored value, or
`none` (Python `None`) when the key is absent.  JSON objects produced by
`json.loads` have distinct keys, so first-match lookup is adequate. -/
def dictGet (fields : List (String × JVal)) (key : String) : Option JVal :=
  (fields.find? (fun kv => kv.1 == key)).map (fun kv => kv.2)

/-- An `<a>` element; `href?` is its `href` attribute when present. -/
structure Anchor where
  href? : Option String
deriving DecidableEq

/-- A `<section>` element with its descendant anchors in document order. -/
structure HtmlSection where
  anchors : List Anchor
deriving DecidableEq

/-- The parsed search-results page: its `<section>` elements in document
order (`soup.find("section")` takes the head). -/
structure SearchPage where
  sections : List HtmlSection
deriving DecidableEq

/-- The parsed detail page, reduced to what the script inspects: the
first `<script type="application/ld+json">` tag.
`none`: no such tag (`soup.find` returns `None`);
`some none`: the tag exists but its text is not valid JSON (or the tag's
`.string` is `None`), so `json.loads` raises;
`some (some v)`: its text parses to the JSON value `v`. -/
structure DetailPage where
  ldjsonScript : Option (Option JVal)

/-- Outcome of one `requests.get`: a transport-level exception, or a
response with a status code and (parsed) body. -/
inductive HttpResult (α : Type)
  | resp (status : Nat) (body : α)
  | exn

/-- The network oracle: what each search GET (by query) and each detail
GET (by identifier) returns. -/
structure Net where
  search : String → HttpResult SearchPage
  detail : String → HttpResult DetailPage

/-- Instrumentation: the HTTP requests the script performs. -/
inductive Request
  | search (q : String)
  | detail (id : String)
deriving DecidableEq

/-- The script's output tuple `(application_id, friendly_name,
description, category, content_rating, application_rating, pricing)`. -/
abbrev Record := JVal × JVal × JVal × JVal × JVal × JVal × JVal

/-- `("Not found",) * 7`. -/
def notFound7 : Record :=
  (.str "Not found", .str "Not found", .str "Not found", .str "Not found",
   .str "Not found", .str "Not found", .str "Not found")

/-- `("Not applicable",) * 7`. -/
def notApplicable7 : Record :=
  (.str "Not applicable", .str "Not applicable", .str "Not applicable",
   .str "Not applicable", .str "Not applicable", .str "Not applicable",
   .str "Not applicable")

/-- Digit run to a natural number. -/
def digitsToNat (ds : List Char) : Nat :=
  ds.foldl (fun n c => n * 10 + (c.toNat - 48)) 0

/-- Model of Python `float(s)` on a string, for plain decimal notation:
optional sign, integer digits, optional fractional digits.  Exotic forms
accepted by CPython (exponents, `inf`, `nan`, surrounding whitespace)
are out of the modelled fragment and rejected; no theorem below depends
on the string case.  The value is assembled with `mkRat` over integer
arithmetic so that it evaluates by kernel reduction. -/
def parseDecimal (s : String) : Option ℚ :=
  let signAndRest : ℤ × List Char :=
    match s.toList with
    | '-' :: cs => (-1, cs)
    | '+' :: cs => (1, cs)
    | cs => (1, cs)
  let sign := signAndRest.1
  let rest := signAndRest.2
  let intPart := rest.takeWhile Char.isDigit
  match rest.dropWhile Char.isDigit with
  | [] =>
    if intPart.isEmpty then none
    else some (mkRat (sign * (digitsToNat intPart : ℤ)) 1)
  | '.' :: fracPart =>
    if fracPart.all Char.isDigit && !(intPart.isEmpty && fracPart.isEmpty) then
      some (mkRat
        (sign * ((digitsToNat intPart : ℤ) * (10 : ℤ) ^ fracPart.length +
          (digitsToNat fracPart : ℤ)))
        ((10 : Nat) ^ fracPart.length))
    else none
  | _ => none

/-- Model of Python `float(x)` applied to the result of `.get(...)`:
`none` is Python `None` (`TypeError`); JSON `null` is also `None`;
`float(True) = 1.0`; strings go through `parseDecimal` (`ValueError` on
failure); lists and dicts raise `TypeError`. -/
def pyFloat : Option JVal → Except PyErr ℚ
  | none => .error .typeError
  | some .null => .error .typeError
  | some (.bool b) => .ok (if b then 1 else 0)
  | some (.num q) => .ok q
  | some (.str s) =>
    match parseDecimal s with
    | some q => .ok q
    | none => .error .valueError
  | some (.arr _) => .error .typeError
  | some (.obj _) => .error .typeError

/-- Round the fraction `a / b` (with `0 < b`) to the nearest integer,
ties to even — the rounding CPython's `round` applies.  Phrased over
`Int` so that it evaluates by kernel reduction. -/
def roundHalfEvenFrac (a b : ℤ) : ℤ :=
  let n := Int.fdiv a b
  let r := a - n * b
  if 2 * r < b then n
  else if b < 2 * r then n + 1
  else if n % 2 = 0 then n else n + 1

/-- Model of Python `round(x, 2)`: round to two decimal places, ties to
even (the binary-float representation error of CPython floats is below
the granularity any claim exercises). -/
def pyRound2 (q : ℚ) : ℚ :=
  mkRat (roundHalfEvenFrac (q.num * 100) (q.den : ℤ)) 100

/-- `offers[0]`: head of a list; first character of a nonempty string;
`IndexError` on an empty sequence; `KeyError` on a dict without key `0`
(JSON object keys are strings); `TypeError` otherwise. -/
def pySubscript0 : JVal → Except PyErr JVal
  | .arr (x :: _) => .ok x
  | .arr [] => .error .indexError
  | .str s =>
    match s.toList with
    | [] => .error .indexError
    | c :: _ => .ok (.str (String.mk [c]))
  | .obj _ => .error .keyError
  | _ => .error .typeError

/-- Lines 93–98: `aggregate_rating = data.get("aggregateRating", {})`
then `round(float(aggregate_rating.get("ratingValue")), 2) if
aggregate_rating else "Not Found"`.  `.get` on a non-dict raises
`AttributeError`; `float` raises per `pyFloat`. -/
def computeRating (fields : List (String × JVal)) : Except PyErr JVal :=
  let aggregate_rating := (dictGet fields "aggregateRating").getD (.obj [])
  if aggregate_rating.truthy then
    match aggregate_rating with
    | .obj afs =>
      match pyFloat (dictGet afs "ratingValue") with
      | .ok x => .ok (.num (pyRound2 x))
      | .error e => .error e
    | _ => .error .attributeError
  else .ok (.str "Not Found")

/-- Lines 99–100: `offers = data.get("offers", [])` then
`offers[0].get("price", "Not Found") if offers else "Not Found"`.
`.get` on a non-dict first element raises `AttributeError`. -/
def computePricing (fields : List (String × JVal)) : Except PyErr JVal :=
  let offers := (dictGet fields "offers").getD (.arr [])
  if offers.truthy then
    match pySubscript0 offers with
    | .ok first =>
      match first with
      | .obj ofs => .ok ((dictGet ofs "price").getD (.str "Not Found"))
      | _ => .error .attributeError
    | .error e => .error e
  else .ok (.str "Not Found")

/-- Lines 87–112: field extraction from the parsed structured-data
value.  `data.get` on a non-dict (`json.loads` can return lists,
strings, numbers) raises `AttributeError`. -/
def extractFields (app_name : String) (data : JVal) : Except PyErr Record :=
  match data with
  | .obj fields =>
    let friendly_name := (dictGet fields "name").getD (.str "Not Found")
    let description := (dictGet fields "description").getD (.str "Not Found")
    let category := (dictGet fields "applicationCategory").getD (.str "Not Found")
    let content_rating := (dictGet fields "contentRating").getD (.str "Not Found")
    match computeRating fields with
    | .error e => .error e
    | .ok application_rating =>
      match computePricing fields with
      | .error e => .error e
      | .ok pricing =>
        .ok (.str app_name, friendly_name, description, category,
             content_rating, application_rating, pricing)
  | _ => .error .attributeError

/-- The detail-page URL marker the search code looks for in anchors. -/
def detailMarker : String := "/store/apps/details?id="

/-- Does `needle` occur as a contiguous run inside `haystack`? -/
def listContainsSub (needle : List Char) : List Char → Bool
  | [] => needle.isEmpty
  | c :: rest => needle.isPrefixOf (c :: rest) || listContainsSub needle rest

/-- Does an `href` contain the detail-page marker as a substring?
Models Python's `"/store/apps/details?id=" in href`. -/
def hasDetailMarker (href : String) : Bool :=
  listContainsSub detailMarker.toList href.toList

/-- Lines 50–71, the body of the first `try` block (search fallback).
`requests.get` raising is `.error .requestException`.  On status 200 the
code takes the first `<section>`; if there is none it falls through with
the original name.  Within the section it takes the first anchor that
has an `href` containing the marker; `.ok none` is the
`return ("Not found",) * 7` of the no-anchor branch; on a hit the new
name is `link["href"].split("=")[1]` (an `IndexError` if the href had no
`"="`, which the marker precludes).  On a non-200 status the block ends
without returning and the original name falls through. -/
def searchBody (net : Net) (q : String) : Except PyErr (Option String) :=
  match net.search q with
  | .exn => .error .requestException
  | .resp status page =>
    if status == 200 then
      match page.sections with
      | [] => .ok (some q)
      | sec :: _ =>
        match (sec.anchors.filterMap Anchor.href?).find? hasDetailMarker with
        | none => .ok none
        | some href =>
          match (splitOnChar '=' href.toList)[1]? with
          | some newName => .ok (some (String.mk newName))
          | none => .error .indexError
    else .ok (some q)

/-- Lines 79–112 and 113–117, the body of the second `try` block.
On a non-200 status: `return ("Not found",) * 7`.  On 200: if the
`application/ld+json` script tag is absent, the code skips the
extraction block and the `return` statement references the never-
assigned locals, raising `NameError`; if the tag's text is not valid
JSON, `json.loads` raises; otherwise the fields are extracted. -/
def detailBody (net : Net) (id : String) : Except PyErr Record :=
  match net.detail id with
  | .exn => .error .requestException
  | .resp status page =>
    if status == 200 then
      match page.ldjsonScript with
      | none => .error .nameError
      | some none => .error .jsonDecodeError
      | some (some data) => extractFields id data
    else .ok notFound7

/-- Lines 45–74: the resolution step.  When the name contains a `.` the
search is skipped and the name passes through unchanged with no request.
Otherwise the search request is issued; the `except` handler (lines
72–74) converts any exception from the try body into the `("Not
found",) * 7` return, here the `none` outcome.  The second component is
the request log. -/
def resolveStep (net : Net) (q : String) : Option String × List Request :=
  if !(pyContainsChar q '.') then
    match searchBody net q with
    | .ok r => (r, [Request.search q])
    | .error _ => (none, [Request.search q])
  else (some q, [])

/-- Lines 30–120: `scrape_google_play`.  The outer `Except` is what the
caller observes: a returned record or an uncaught exception.  The
policy gate (lines 41–43) short-circuits before any request.  A `none`
resolution is the `("Not found",) * 7` return.  Otherwise the detail
fetch runs, its `except` handler (lines 118–120) mapping any exception
from the try body to `("Not found",) * 7`. -/
def scrape_google_play (net : Net) (q : String) :
    Except PyErr (Record × List Request) :=
  if pyStartsWith q "com.android" && pyStrNe q "com.android.chrome" then
    .ok (notApplicable7, [])
  else
    match resolveStep net q with
    | (none, log) => .ok (notFound7, log)
    | (some id, log) =>
      match detailBody net id with
      | .ok rec => .ok (rec, log ++ [Request.detail id])
      | .error _ => .ok (notFound7, log ++ [Request.detail id])

/-- Line 140: `df.drop_duplicates(subset=["Application Name"])`, keeping
the first occurrence of each name, via a left fold that appends a name
only when unseen. -/
def dedupFirstGo (acc : List String) : List String → List String
  | [] => acc
  | x :: xs => dedupFirstGo (if x ∈ acc then acc else acc ++ [x]) xs

/-- Duplicate rows collapsed to their first occurrence. -/
def dedupFirst (rows : List String) : List String := dedupFirstGo [] rows

/-- Lines 152–169: one loop iteration — call `scrape_google_play`,
destructure its tuple into the row's columns (an exception would
propagate).  The output row is the name together with the record. -/
def processRow (net : Net) (name : String) : Except PyErr (String × Record) :=
  match scrape_google_play net name with
  | .ok out => .ok (name, out.1)
  | .error e => .error e

/-- The whole loop over the deduplicated rows. -/
def processRows (net : Net) : List String → Except PyErr (List (String × Record))
  | [] => .ok []
  | name :: rest =>
    match processRow net name with
    | .error e => .error e
    | .ok pr =>
      match processRows net rest with
      | .error e => .error e
      | .ok prs => .ok (pr :: prs)

/-- Lines 123–171: `load_and_process_excel` on the sequence of names in
the input file's single column; `num_rows` is the optional `df.head`
truncation. -/
def load_and_process_excel (net : Net) (rows : List String)
    (num_rows : Option Nat) : Except PyErr (List (String × Record)) :=
  let rows2 := match num_rows with | some n => rows.take n | none => rows
  processRows net (dedupFirst rows2)

/-- A structured-data value with every extracted field present. -/
def goodData : JVal := .obj
  [("name", .str "Example App"), ("description", .str "An example."),
   ("applicationCategory", .str "Tools"), ("contentRating", .str "Everyone"),
   ("aggregateRating", .obj [("ratingValue", .num (mkRat 45 10))]),
   ("offers", .arr [.obj [("price", .str "0")]])]

/-- The record `scrape_google_play` builds from `goodData`. -/
def goodRecord (id : String) : Record :=
  (.str id, .str "Example App", .str "An example.", .str "Tools",
   .str "Everyone", .num (mkRat 45 10), .str "0")

/-- An oracle on which every request fails at the transport level. -/
def netW : Net := ⟨fun _ => .exn, fun _ => .exn⟩

/-- Search answers 500 with an empty page; detail answers 200 with
`goodData`. -/
def netC1 : Net :=
  ⟨fun _ => .resp 500 ⟨[]⟩, fun _ => .resp 200 ⟨some (some goodData)⟩⟩

/-- Detail answers 200 but the page has no `application/ld+json` block. -/
def netC2a : Net := ⟨fun _ => .exn, fun _ => .resp 200 ⟨none⟩⟩

/-- Detail answers 200 but the block's text is malformed JSON. -/
def netC2b : Net := ⟨fun _ => .exn, fun _ => .resp 200 ⟨some none⟩⟩

/-- Structured data whose `aggregateRating` is a nonempty object without
a `ratingValue` key. -/
def dataC3 : JVal := .obj
  [("name", .str "Example App"),
   ("aggregateRating", .obj [("ratingCount", .num (mkRat 10 1))])]

/-- Detail answers 200 with `dataC3`. -/
def netC3 : Net := ⟨fun _ => .exn, fun _ => .resp 200 ⟨some (some dataC3)⟩⟩

/-- A search page whose first section's first anchor has a detail href
carrying an extra query parameter after the identifier. -/
def pageC4 : SearchPage :=
  ⟨[⟨[⟨some "/store/apps/details?id=com.example.app&hl=en"⟩]⟩]⟩

/-- Search answers 200 with `pageC4`; detail fails. -/
def netC4 : Net := ⟨fun _ => .resp 200 pageC4, fun _ => .exn⟩

/-- A search page whose first anchor's detail href has no extra
parameters. -/
def pageW4 : SearchPage :=
  ⟨[⟨[⟨some "/store/apps/details?id=com.example.app"⟩]⟩]⟩

/-- Search answers 200 with `pageW4`; detail fails. -/
def netW4 : Net := ⟨fun _ => .resp 200 pageW4, fun _ => .exn⟩

/-- Detail answers 404. -/
def netW7 : Net := ⟨fun _ => .exn, fun _ => .resp 404 ⟨none⟩⟩

/-- Fields whose `offers` list is nonempty but whose first offer has no
`price` key. -/
def fieldsC10 : List (String × JVal) :=
  [("name", .str "Example App"),
   ("offers", .arr [.obj [("currency", .str "USD")]])]

/-- First-occurrence deduplication, stated the way the spec describes it
("duplicates collapsed to their first occurrence, order preserved"):
keep the head, drop its later copies, recurse.  This is the
specification-side characterisation against which the fold
`dedupFirst` of the source loop is proved equal. -/
def keepFirst : List String → List String
  | [] => []
  | x :: xs => x :: keepFirst (xs.filter (fun y => y ≠ x))
termination_by l => l.length
decreasing_by
  simp only [List.length_cons]
  exact Nat.lt_succ_of_le (List.length_filter_le _ _)

theorem mem_keepFirst (a : String) (l : List String) :
    a ∈ keepFirst l ↔ a ∈ l := by
  induction l using keepFirst.induct with
  | case1 => simp [keepFirst]
  | case2 x xs ih =>
    simp only [keepFirst, List.mem_cons, ih, List.mem_filter]
    by_cases hax : a = x
    · simp [hax]
    · simp [hax]

theorem nodup_keepFirst (l : List String) : (keepFirst l).Nodup := by
  induction l using keepFirst.induct with
  | case1 => simp [keepFirst]
  | case2 x xs ih =>
    rw [keepFirst]
    refine List.nodup_cons.mpr ⟨?_, ih⟩
    rw [mem_keepFirst]
    simp

theorem sublist_keepFirst (l : List String) : List.Sublist (keepFirst l) l := by
  induction l using keepFirst.induct with
  | case1 => simp [keepFirst]
  | case2 x xs ih =>
    rw [keepFirst]
    exact List.Sublist.cons₂ x (ih.trans (List.filter_sublist xs))

theorem toFinset_keepFirst (l : List String) :
    (keepFirst l).toFinset = l.toFinset := by
  ext a
  simp [List.mem_toFinset, mem_keepFirst]

theorem length_keepFirst (l : List String) :
    (keepFirst l).length = l.toFinset.card := by
  rw [← toFinset_keepFirst, List.toFinset_card_of_nodup (nodup_keepFirst l)]

theorem dedupFirstGo_eq (l acc : List String) :
    dedupFirstGo acc l =
      acc ++ keepFirst (l.filter (fun y => y ∉ acc)) := by
  induction l generalizing acc with
  | nil => simp [dedupFirstGo, keepFirst]
  | cons x xs ih =>
    rw [dedupFirstGo]
    by_cases hx : x ∈ acc
    · rw [if_pos hx, ih, List.filter_cons]
      simp [hx]
    · rw [if_neg hx, ih, List.filter_cons]
      have hfx : (decide (x ∉ acc)) = true := by simp [hx]
      rw [hfx, if_pos rfl, keepFirst, List.filter_filter]
      have hpt : ∀ y ∈ xs,
          (decide (y ∉ acc ++ [x])) = (decide (y ≠ x) && decide (y ∉ acc)) := by
        intro y _
        by_cases h1 : y = x <;> by_cases h2 : y ∈ acc <;> simp [h1, h2]
      rw [List.filter_congr hpt]
      simp

theorem dedupFirst_eq_keepFirst (l : List String) :
    dedupFirst l = keepFirst l := by
  rw [dedupFirst, dedupFirstGo_eq]
  simp

theorem scrape_ok (net : Net) (q : String) :
    ∃ out, scrape_google_play net q = Except.ok out := by
  unfold scrape_google_play
  split
  · exact ⟨_, rfl⟩
  · split
    · exact ⟨_, rfl⟩
    · split
      · exact ⟨_, rfl⟩
      · exact ⟨_, rfl⟩

theorem processRow_eq (net : Net) (name : String) (out : Record × List Request)
    (h : scrape_google_play net name = Except.ok out) :
    processRow net name = Except.ok (name, out.1) := by
  rw [processRow, h]

theorem processRows_ok (net : Net) (l : List String) :
    ∃ out, processRows net l = Except.ok out ∧ out.map Prod.fst = l := by
  induction l with
  | nil => exact ⟨[], rfl, rfl⟩
  | cons x xs ih =>
    obtain ⟨o, ho⟩ := scrape_ok net x
    obtain ⟨out, hout, hmap⟩ := ih
    refine ⟨(x, o.1) :: out, ?_, ?_⟩
    · rw [processRows, processRow_eq net x o ho, hout]
    · simp [hmap]

theorem scrape_gate_false {q : String}
    (hgate : (pyStartsWith q "com.android" &&
      pyStrNe q "com.android.chrome") = false) (net : Net) :
    scrape_google_play net q =
      match resolveStep net q with
      | (none, log) => Except.ok (notFound7, log)
      | (some id, log) =>
        match detailBody net id with
        | .ok rec => Except.ok (rec, log ++ [Request.detail id])
        | .error _ => Except.ok (notFound7, log ++ [Request.detail id]) := by
  unfold scrape_google_play
  rw [hgate]
  rfl

theorem scrape_eq_notFound {net : Net} {q : String} {log : List Request}
    (hgate : (pyStartsWith q "com.android" &&
      pyStrNe q "com.android.chrome") = false)
    (hres : resolveStep net q = (none, log)) :
    scrape_google_play net q = Except.ok (notFound7, log) := by
  rw [scrape_gate_false hgate, hres]

theorem scrape_eq_detail {net : Net} {q id : String} {log : List Request}
    (hgate : (pyStartsWith q "com.android" &&
      pyStrNe q "com.android.chrome") = false)
    (hres : resolveStep net q = (some id, log)) :
    scrape_google_play net q =
      match detailBody net id with
      | .ok rec => Except.ok (rec, log ++ [Request.detail id])
      | .error _ => Except.ok (notFound7, log ++ [Request.detail id]) := by
  rw [scrape_gate_false hgate, hres]

theorem resolveStep_dot {q : String} (hdot : pyContainsChar q '.' = true)
    (net : Net) : resolveStep net q = (some q, []) := by
  unfold resolveStep
  rw [hdot]
  rfl

theorem resolveStep_no_dot {q : String} (hdot : pyContainsChar q '.' = false)
    (net : Net) :
    resolveStep net q =
      match searchBody net q with
      | .ok r => (r, [Request.search q])
      | .error _ => (none, [Request.search q]) := by
  unfold resolveStep
  rw [hdot]
  rfl

theorem resolveStep_of_searchBody_ok {net : Net} {q : String}
    {r : Option String} (hdot : pyContainsChar q '.' = false)
    (h : searchBody net q = .ok r) :
    resolveStep net q = (r, [Request.search q]) := by
  rw [resolveStep_no_dot hdot net, h]

theorem resolveStep_of_searchBody_error {net : Net} {q : String} {e : PyErr}
    (hdot : pyContainsChar q '.' = false) (h : searchBody net q = .error e) :
    resolveStep net q = (none, [Request.search q]) := by
  rw [resolveStep_no_dot hdot net, h]

theorem searchBody_exn {net : Net} {q : String} (h : net.search q = .exn) :
    searchBody net q = .error .requestException := by
  unfold searchBody
  rw [h]

theorem searchBody_non200 {net : Net} {q : String} {s : Nat}
    {page : SearchPage} (h : net.search q = .resp s page)
    (hs : (s == 200) = false) : searchBody net q = .ok (some q) := by
  unfold searchBody
  rw [h]
  simp [hs]

theorem searchBody_no_section {net : Net} {q : String} {page : SearchPage}
    (h : net.search q = .resp 200 page) (hsec : page.sections = []) :
    searchBody net q = .ok (some q) := by
  unfold searchBody
  rw [h]
  simp [hsec]

theorem searchBody_no_anchor {net : Net} {q : String} {page : SearchPage}
    {sec : HtmlSection} {rest : List HtmlSection}
    (h : net.search q = .resp 200 page) (hsec : page.sections = sec :: rest)
    (hfind : (sec.anchors.filterMap Anchor.href?).find? hasDetailMarker = none) :
    searchBody net q = .ok none := by
  unfold searchBody
  rw [h]
  simp [hsec, hfind]

theorem searchBody_anchor {net : Net} {q : String} {page : SearchPage}
    {sec : HtmlSection} {rest : List HtmlSection} {href : String}
    {newName : List Char}
    (h : net.search q = .resp 200 page) (hsec : page.sections = sec :: rest)
    (hfind : (sec.anchors.filterMap Anchor.href?).find? hasDetailMarker =
      some href)
    (hsplit : (splitOnChar '=' href.toList)[1]? = some newName) :
    searchBody net q = .ok (some (String.mk newName)) := by
  unfold searchBody
  rw [h]
  simp only [Nat.reduceBEq, beq_self_eq_true, if_true, hsec, hfind]
  rw [hsplit]

theorem detailBody_exn {net : Net} {id : String} (h : net.detail id = .exn) :
    detailBody net id = .error .requestException := by
  unfold detailBody
  rw [h]

theorem detailBody_non200 {net : Net} {id : String} {s : Nat}
    {page : DetailPage} (h : net.detail id = .resp s page)
    (hs : (s == 200) = false) : detailBody net id = .ok notFound7 := by
  unfold detailBody
  rw [h]
  simp [hs]

theorem detailBody_200 {net : Net} {id : String} {page : DetailPage}
    (h : net.detail id = .resp 200 page) :
    detailBody net id =
      match page.ldjsonScript with
      | none => .error .nameError
      | some none => .error .jsonDecodeError
      | some (some data) => extractFields id data := by
  unfold detailBody
  rw [h]
  rfl

theorem computeRating_of_agg_none {fields : List (String × JVal)}
    (hagg : dictGet fields "aggregateRating" = none) :
    computeRating fields = .ok (.str "Not Found") := by
  unfold computeRating
  rw [hagg]
  rfl

theorem computeRating_of_ratingValue_num {fields afs : List (String × JVal)}
    {x : ℚ} (hagg : dictGet fields "aggregateRating" = some (.obj afs))
    (hne : afs ≠ []) (hrv : dictGet afs "ratingValue" = some (.num x)) :
    computeRating fields = .ok (.num (pyRound2 x)) := by
  unfold computeRating
  rw [hagg]
  cases afs with
  | nil => exact absurd rfl hne
  | cons kv tail => simp [JVal.truthy, pyFloat, hrv]

theorem computeRating_of_ratingValue_absent {fields afs : List (String × JVal)}
    (hagg : dictGet fields "aggregateRating" = some (.obj afs))
    (hne : afs ≠ []) (hrv : dictGet afs "ratingValue" = none) :
    computeRating fields = .error .typeError := by
  unfold computeRating
  rw [hagg]
  cases afs with
  | nil => exact absurd rfl hne
  | cons kv tail => simp [JVal.truthy, pyFloat, hrv]

theorem extractFields_eq (id : String) {fields : List (String × JVal)}
    {r p : JVal} (hr : computeRating fields = .ok r)
    (hp : computePricing fields = .ok p) :
    extractFields id (.obj fields) = .ok
      (.str id,
       (dictGet fields "name").getD (.str "Not Found"),
       (dictGet fields "description").getD (.str "Not Found"),
       (dictGet fields "applicationCategory").getD (.str "Not Found"),
       (dictGet fields "contentRating").getD (.str "Not Found"),
       r, p) := by
  simp only [extractFields]
  rw [hr, hp]

theorem extractFields_rating_error (id : String)
    {fields : List (String × JVal)} {e : PyErr}
    (hr : computeRating fields = .error e) :
    extractFields id (.obj fields) = .error e := by
  simp only [extractFields]
  rw [hr]

/-- C5: for every input that begins with the reserved-namespace prefix
`"com.android"` and is not the allow-listed exception
`"com.android.chrome"`, the pipeline performs no network call (empty
request log, for any oracle) and emits the all-`"Not applicable"`
record. -/
theorem c5_policy_gate (q : String)
    (h1 : pyStartsWith q "com.android" = true)
    (h2 : pyStrNe q "com.android.chrome" = true) (net : Net) :
    scrape_google_play net q = Except.ok (notApplicable7, []) := by
  unfold scrape_google_play
  rw [h1, h2]
  rfl

/-- Witness for C5 at `"com.android.vending"`. -/
theorem c5_policy_gate_witness :
    scrape_google_play netW "com.android.vending" =
      Except.ok (notApplicable7, []) :=
  c5_policy_gate "com.android.vending" rfl rfl netW

/-- C6: for every input containing a dot (and not excluded by the
policy gate), no search request is issued and the query string is the
identifier of the only request, the detail fetch, unchanged. -/
theorem c6_dotted_passthrough (net : Net) (q : String)
    (hgate : (pyStartsWith q "com.android" &&
      pyStrNe q "com.android.chrome") = false)
    (hdot : pyContainsChar q '.' = true) :
    ∃ rec, scrape_google_play net q =
      Except.ok (rec, [Request.detail q]) := by
  rw [scrape_eq_detail hgate (resolveStep_dot hdot net)]
  cases detailBody net q with
  | ok rec => exact ⟨rec, rfl⟩
  | error e => exact ⟨notFound7, rfl⟩

/-- Witness for C6 at `"com.spotify.music"`. -/
theorem c6_dotted_passthrough_witness :
    ∃ rec, scrape_google_play netW "com.spotify.music" =
      Except.ok (rec, [Request.detail "com.spotify.music"]) :=
  c6_dotted_passthrough netW "com.spotify.music" rfl rfl

/-- C7: if the detail fetch raises at transport level or returns a
non-200 status, the emitted record is the all-`"Not found"` record
(`applicationId` included), with the detail request as the only
network call of the detail phase. -/
theorem c7_detail_fetch_failure (net : Net) (q : String)
    (hgate : (pyStartsWith q "com.android" &&
      pyStrNe q "com.android.chrome") = false)
    (hdot : pyContainsChar q '.' = true)
    (hfail : net.detail q = .exn ∨
      ∃ s page, net.detail q = .resp s page ∧ (s == 200) = false) :
    scrape_google_play net q = Except.ok (notFound7, [Request.detail q]) := by
  rw [scrape_eq_detail hgate (resolveStep_dot hdot net)]
  rcases hfail with hexn | ⟨s, page, hresp, hs⟩
  · rw [detailBody_exn hexn]
    rfl
  · rw [detailBody_non200 hresp hs]
    rfl

/-- Witness for C7: a detail fetch answering 404. -/
theorem c7_detail_fetch_failure_witness :
    scrape_google_play netW7 "com.missing.app" =
      Except.ok (notFound7, [Request.detail "com.missing.app"]) :=
  c7_detail_fetch_failure netW7 "com.missing.app" rfl rfl
    (Or.inr ⟨404, ⟨none⟩, rfl, rfl⟩)

/-- C8: for every input string and every outcome of the HTTP calls and
parsing (`Net` ranges over all oracles, including raising ones, and
`PyErr` models every point at which the Python body can raise), the
pipeline returns a record to its caller and never an exception. -/
theorem c8_total_no_raise (net : Net) (q : String) :
    ∃ out, scrape_google_play net q = Except.ok out :=
  scrape_ok net q

/-- C9: for every input list, the batch loop succeeds, emits exactly one
record per distinct input name (count equals the number of distinct
names), in first-occurrence order (the name column is exactly the
first-occurrence deduplication of the input, a duplicate-free sublist
of it), and every record is a full seven-field tuple by construction. -/
theorem c9_output_shape (net : Net) (rows : List String) :
    ∃ out, load_and_process_excel net rows none = Except.ok out ∧
      out.map Prod.fst = keepFirst rows ∧
      out.length = rows.toFinset.card ∧
      List.Sublist (out.map Prod.fst) rows ∧
      (out.map Prod.fst).Nodup := by
  obtain ⟨out, hout, hmap⟩ := processRows_ok net (dedupFirst rows)
  have hkf : dedupFirst rows = keepFirst rows := dedupFirst_eq_keepFirst rows
  refine ⟨out, ?_, ?_, ?_, ?_, ?_⟩
  · unfold load_and_process_excel
    exact hout
  · rw [hmap, hkf]
  · have hlen := congrArg List.length hmap
    rw [List.length_map] at hlen
    rw [hlen, hkf, length_keepFirst]
  · rw [hmap, hkf]
    exact sublist_keepFirst rows
  · rw [hmap, hkf]
    exact nodup_keepFirst rows

/-- C10: if the structured-data JSON has a nonempty `offers` list whose
first element is an object without a `"price"` key, `pricing` defaults
to `"Not Found"` while every other field is extracted normally. -/
theorem c10_offers_missing_price (id : String)
    (fields ofs : List (String × JVal)) (rest : List JVal) (r : JVal)
    (hoff : dictGet fields "offers" = some (.arr (.obj ofs :: rest)))
    (hprice : dictGet ofs "price" = none)
    (hrat : computeRating fields = .ok r) :
    extractFields id (.obj fields) = .ok
      (.str id,
       (dictGet fields "name").getD (.str "Not Found"),
       (dictGet fields "description").getD (.str "Not Found"),
       (dictGet fields "applicationCategory").getD (.str "Not Found"),
       (dictGet fields "contentRating").getD (.str "Not Found"),
       r, .str "Not Found") := by
  have hpr : computePricing fields = .ok (.str "Not Found") := by
    unfold computePricing
    rw [hoff]
    simp [JVal.truthy, pySubscript0, hprice]
  exact extractFields_eq id hrat hpr

/-- Witness for C10 on `fieldsC10`. -/
theorem c10_offers_missing_price_witness :
    extractFields "com.example.app" (.obj fieldsC10) = .ok
      (.str "com.example.app", .str "Example App", .str "Not Found",
       .str "Not Found", .str "Not Found", .str "Not Found",
       .str "Not Found") :=
  c10_offers_missing_price "com.example.app" fieldsC10
    [("currency", JVal.str "USD")] [] (JVal.str "Not Found") rfl rfl rfl

/-- C1 (amended): for a dotless query below the policy gate, the four
search outcomes behave as follows.  On a transport-level exception, or
on a 200 page whose first section contains no anchor with the
detail-page marker, the record is all-`"Not found"` and no detail fetch
happens.  But on a non-200 status, or on a 200 page with no section at
all, the code falls through and performs the detail fetch with the
original query (the claim's "all seven fields Not found, no detail
fetch" holds only in the first two cases). -/
theorem c1_search_failure_paths (net : Net) (q : String)
    (hgate : (pyStartsWith q "com.android" &&
      pyStrNe q "com.android.chrome") = false)
    (hdot : pyContainsChar q '.' = false) :
    (net.search q = .exn →
      scrape_google_play net q = Except.ok (notFound7, [Request.search q])) ∧
    (∀ page sec rest, net.search q = .resp 200 page →
      page.sections = sec :: rest →
      (sec.anchors.filterMap Anchor.href?).find? hasDetailMarker = none →
      scrape_google_play net q = Except.ok (notFound7, [Request.search q])) ∧
    (∀ s page, net.search q = .resp s page → (s == 200) = false →
      ∃ rec, scrape_google_play net q =
        Except.ok (rec, [Request.search q, Request.detail q])) ∧
    (∀ page, net.search q = .resp 200 page → page.sections = [] →
      ∃ rec, scrape_google_play net q =
        Except.ok (rec, [Request.search q, Request.detail q])) := by
  refine ⟨?_, ?_, ?_, ?_⟩
  · intro hexn
    exact scrape_eq_notFound hgate
      (resolveStep_of_searchBody_error hdot (searchBody_exn hexn))
  · intro page sec rest hresp hsec hfind
    exact scrape_eq_notFound hgate
      (resolveStep_of_searchBody_ok hdot (searchBody_no_anchor hresp hsec hfind))
  · intro s page hresp hs
    rw [scrape_eq_detail hgate
      (resolveStep_of_searchBody_ok hdot (searchBody_non200 hresp hs))]
    cases detailBody net q with
    | ok rec => exact ⟨rec, rfl⟩
    | error e => exact ⟨notFound7, rfl⟩
  · intro page hresp hsec
    rw [scrape_eq_detail hgate
      (resolveStep_of_searchBody_ok hdot (searchBody_no_section hresp hsec))]
    cases detailBody net q with
    | ok rec => exact ⟨rec, rfl⟩
    | error e => exact ⟨notFound7, rfl⟩

/-- Witness for C1: a search transport failure. -/
theorem c1_search_failure_paths_witness :
    scrape_google_play netW "exampleapp" =
      Except.ok (notFound7, [Request.search "exampleapp"]) :=
  (c1_search_failure_paths netW "exampleapp" rfl rfl).1 rfl

/-- Counterexample to C1 as stated: on a non-200 search response the
pipeline does NOT emit the all-`"Not found"` record and it DOES perform
a detail fetch — it falls through to the detail fetch with the original
query and here returns a fully populated record. -/
theorem c1_counterexample_non200_falls_through :
    scrape_google_play netC1 "exampleapp" =
      Except.ok (goodRecord "exampleapp",
        [Request.search "exampleapp", Request.detail "exampleapp"]) ∧
    goodRecord "exampleapp" ≠ notFound7 :=
  ⟨rfl, by simp [goodRecord, notFound7]⟩

/-- C2 (code bug): when the detail fetch returns 200 but the page has no
`application/ld+json` block (`netC2a`) or its content is malformed JSON
(`netC2b`), the code raises (`NameError` at the return statement,
resp. `json.JSONDecodeError`), the blanket handler catches, and ALL
seven fields are `"Not found"` — in particular `applicationId` is NOT
the input identifier, contradicting the claim. -/
theorem c2_missing_block_eval :
    scrape_google_play netC2a "com.example.app" =
      Except.ok (notFound7, [Request.detail "com.example.app"]) ∧
    scrape_google_play netC2b "com.example.app" =
      Except.ok (notFound7, [Request.detail "com.example.app"]) ∧
    notFound7.1 ≠ JVal.str "com.example.app" :=
  ⟨rfl, rfl, by simp [notFound7]⟩

/-- C3 (amended): `applicationRating` is `ratingValue` rounded
(half-even) to two decimals whenever `aggregateRating` is present and
nonempty with a numeric `ratingValue` (and 4.3456 rounds to 4.35); if
`aggregateRating` is absent, `applicationRating` is `"Not Found"` and
the other fields are extracted normally; but if `aggregateRating` is
present and nonempty while `ratingValue` is absent, `float(None)`
raises, the handler catches, and ALL seven fields become `"Not found"`
(not a field-level default). -/
theorem c3_rating_extraction :
    (∀ (fields afs : List (String × JVal)) (x : ℚ),
      dictGet fields "aggregateRating" = some (.obj afs) → afs ≠ [] →
      dictGet afs "ratingValue" = some (.num x) →
      computeRating fields = .ok (.num (pyRound2 x))) ∧
    pyRound2 (mkRat 43456 10000) = mkRat 435 100 ∧
    (∀ (id : String) (fields : List (String × JVal)) (p : JVal),
      dictGet fields "aggregateRating" = none →
      computePricing fields = .ok p →
      extractFields id (.obj fields) = .ok
        (.str id,
         (dictGet fields "name").getD (.str "Not Found"),
         (dictGet fields "description").getD (.str "Not Found"),
         (dictGet fields "applicationCategory").getD (.str "Not Found"),
         (dictGet fields "contentRating").getD (.str "Not Found"),
         .str "Not Found", p)) ∧
    (∀ (fields afs : List (String × JVal)),
      dictGet fields "aggregateRating" = some (.obj afs) → afs ≠ [] →
      dictGet afs "ratingValue" = none →
      computeRating fields = .error .typeError) ∧
    (∀ (net : Net) (q : String) (fields afs : List (String × JVal)),
      (pyStartsWith q "com.android" && pyStrNe q "com.android.chrome") = false →
      pyContainsChar q '.' = true →
      net.detail q = .resp 200 ⟨some (some (.obj fields))⟩ →
      dictGet fields "aggregateRating" = some (.obj afs) → afs ≠ [] →
      dictGet afs "ratingValue" = none →
      scrape_google_play net q =
        Except.ok (notFound7, [Request.detail q])) := by
  refine ⟨?_, rfl, ?_, ?_, ?_⟩
  · intro fields afs x hagg hne hrv
    exact computeRating_of_ratingValue_num hagg hne hrv
  · intro id fields p hagg hp
    exact extractFields_eq id (computeRating_of_agg_none hagg) hp
  · intro fields afs hagg hne hrv
    exact computeRating_of_ratingValue_absent hagg hne hrv
  · intro net q fields afs hgate hdot hdet hagg hne hrv
    have hdb : detailBody net q = .error .typeError := by
      rw [detailBody_200 hdet]
      exact extractFields_rating_error q
        (computeRating_of_ratingValue_absent hagg hne hrv)
    rw [scrape_eq_detail hgate (resolveStep_dot hdot net), hdb]
    rfl

/-- Witness for C3: `ratingValue = 4.3456` yields `4.35`. -/
theorem c3_rating_extraction_witness :
    computeRating
      [("aggregateRating",
        JVal.obj [("ratingValue", JVal.num (mkRat 43456 10000))])] =
      .ok (.num (pyRound2 (mkRat 43456 10000))) :=
  c3_rating_extraction.1 _ _ _ rfl (by simp) rfl

/-- Counterexample to C3 as stated: with `aggregateRating` present but
lacking `ratingValue`, the claim predicts `applicationRating = "Not
Found"` with the other fields (here `name = "Example App"`) extracted
normally; the code instead emits the all-`"Not found"` record. -/
theorem c3_counterexample_missing_ratingValue :
    scrape_google_play netC3 "com.example.rated" =
      Except.ok (notFound7, [Request.detail "com.example.rated"]) ∧
    notFound7 ≠
      (JVal.str "com.example.rated", JVal.str "Example App",
       JVal.str "Not Found", JVal.str "Not Found", JVal.str "Not Found",
       JVal.str "Not Found", JVal.str "Not Found") :=
  ⟨rfl, by simp [notFound7]⟩

/-- C4 (amended): on a successful search the code takes the first
anchor, in document order within the first section, whose href contains
the detail-page marker — but the identifier it extracts is element 1 of
the href split on every `"="` (`href.split("=")[1]`), which equals the
`id` query-parameter value only when no further `"="` follows; with
additional query parameters the extracted identifier is wrong. -/
theorem c4_anchor_id_extraction (net : Net) (q : String)
    (hgate : (pyStartsWith q "com.android" &&
      pyStrNe q "com.android.chrome") = false)
    (hdot : pyContainsChar q '.' = false)
    (page : SearchPage) (sec : HtmlSection) (rest : List HtmlSection)
    (href : String) (newName : List Char)
    (hresp : net.search q = .resp 200 page)
    (hsec : page.sections = sec :: rest)
    (hfind : (sec.anchors.filterMap Anchor.href?).find? hasDetailMarker =
      some href)
    (hsplit : (splitOnChar '=' href.toList)[1]? = some newName) :
    ∃ rec, scrape_google_play net q =
      Except.ok (rec, [Request.search q, Request.detail (String.mk newName)]) := by
  rw [scrape_eq_detail hgate (resolveStep_of_searchBody_ok hdot
    (searchBody_anchor hresp hsec hfind hsplit))]
  cases detailBody net (String.mk newName) with
  | ok rec => exact ⟨rec, rfl⟩
  | error e => exact ⟨notFound7, rfl⟩

/-- Witness for C4: a clean href with no extra parameters resolves to
the `id` value. -/
theorem c4_anchor_id_extraction_witness :
    ∃ rec, scrape_google_play netW4 "exampleapp" =
      Except.ok (rec,
        [Request.search "exampleapp", Request.detail "com.example.app"]) :=
  c4_anchor_id_extraction netW4 "exampleapp" rfl rfl pageW4 _ _ _
    ("com.example.app".toList) rfl rfl rfl rfl

/-- Counterexample to C4 as stated: with the href
`"/store/apps/details?id=com.example.app&hl=en"` the `id` parameter is
`"com.example.app"`, but the code's `split("=")[1]` extracts
`"com.example.app&hl"` and fetches that instead. -/
theorem c4_counterexample_extra_params :
    scrape_google_play netC4 "exampleapp" =
      Except.ok (notFound7,
        [Request.search "exampleapp", Request.detail "com.example.app&hl"]) ∧
    "com.example.app&hl" ≠ "com.example.app" :=
  ⟨rfl, by decide⟩
